import Mathlib

/-!
Shallow embedding of the crash-handling module of django-cloud-deploy
(`django_cloud_deploy/crash_handling/__init__.py`) and of the browser
utility (`django_cloud_deploy/utils/webbrowser.py`), together with
theorems checking the specification's claims about them.

Python-level effects are made explicit: the outcome of each
`subprocess.check_output` call is an `InvokeResult`, exceptions are
values of `PyExc` carried in `Except`, console and file-system effects
are recorded as an explicit trace of `Event`s, and the jinja2 template
engine is modelled by a small parser/renderer with jinja2's default
`Undefined` semantics (an unresolved placeholder renders as the empty
string).
-/

namespace DjangoCloudDeploy

/-- Python exceptions that can escape the modelled code paths. -/
inductive PyExc
  | fileNotFoundError
  | templateSyntaxError
  | ioFailure
  deriving DecidableEq

/-- Outcome of one `subprocess.check_output` helper-tool query:
either it succeeds with some stdout, or the command exits non-zero
(Python raises `subprocess.CalledProcessError`), or the executable is
missing from PATH (Python raises `FileNotFoundError`). -/
inductive InvokeResult
  | ok (stdout : String)
  | exitNonZero
  | notFound
  deriving DecidableEq

/-- ASCII whitespace, as recognised by Python `str.strip`. -/
def isPySpace (c : Char) : Bool :=
  c = ' ' || c = '\t' || c = '\n' || c = '\r' || c = '\x0b' || c = '\x0c'

/-- Python `str.lower` on a single ASCII character. -/
def pyLowerChar (c : Char) : Char :=
  if 'A' ≤ c ∧ c ≤ 'Z' then Char.ofNat (c.toNat + 32) else c

/-- Python `str.lower` (ASCII model). -/
def pyLower (s : String) : String :=
  ⟨s.data.map pyLowerChar⟩

/-- Python `str.strip()` with no argument: remove leading and trailing
whitespace. -/
def pyStrip (s : String) : String :=
  ⟨((s.data.dropWhile isPySpace).reverse.dropWhile isPySpace).reverse⟩

/-- Python `str.rstrip()`: remove trailing whitespace. -/
def pyRstrip (s : String) : String :=
  ⟨(s.data.reverse.dropWhile isPySpace).reverse⟩

/-- Python `str.replace('\n', ' ')` (single-character replacement). -/
def pyReplaceNewline (s : String) : String :=
  ⟨s.data.map (fun c => if c = '\n' then ' ' else c)⟩

/-- Python `str.format` over a list of characters: each `\x7b\x7d` pair
consumes the next positional argument; `\x7b\x7b` and `\x7d\x7d` are brace
escapes; a lone brace is a `ValueError` and an exhausted argument list an
`IndexError`, both modelled as `none`. -/
def pyFormatChars : List Char → List String → Option String
  | [], _ => some ""
  | '{' :: '{' :: rest, args =>
      (pyFormatChars rest args).map (fun t => String.singleton '{' ++ t)
  | '}' :: '}' :: rest, args =>
      (pyFormatChars rest args).map (fun t => String.singleton '}' ++ t)
  | '{' :: '}' :: rest, a :: args =>
      (pyFormatChars rest args).map (fun t => a ++ t)
  | '{' :: '}' :: _, [] => none
  | '{' :: _, _ => none
  | '}' :: _, _ => none
  | c :: rest, args =>
      (pyFormatChars rest args).map (fun t => String.singleton c ++ t)

/-- Python `str.format` with positional arguments. -/
def pyFormat (fmt : String) (args : List String) : Option String :=
  pyFormatChars fmt.data args

/-- The format string of `_create_issue_title`. -/
def titleFormat : String := "{}:{} during \"{}\""

/-- `_create_issue_title`: `'{}:{} during "{}"'.format(type(err).__name__,
str(err), command)`.  The exception object only contributes its kind name
and message, so those two strings stand for it here. -/
def createIssueTitle (errKind errMsg command : String) : String :=
  (pyFormat titleFormat [errKind, errMsg, command]).getD ""

/-- The sentinel substituted when a helper-tool query fails with
`subprocess.CalledProcessError`. -/
def sentinel : String := "Not installed or not on PATH"

/-- One `try: subprocess.check_output(...).rstrip() except
subprocess.CalledProcessError:` block of `_create_issue_body`.  Only
`CalledProcessError` (non-zero exit) is caught; a missing executable
raises `FileNotFoundError`, which is not handled and propagates. -/
def getVersion : InvokeResult → Except PyExc String
  | .ok out => .ok (pyRstrip out)
  | .exitNonZero => .ok sentinel
  | .notFound => .error .fileNotFoundError

/-- A segment of a parsed jinja2 template: literal text or a `\x7b\x7b name
\x7d\x7d` placeholder. -/
inductive Tok
  | lit (s : String)
  | var (name : String)
  deriving DecidableEq

/-- Prepend one character to a token list, merging into a leading literal. -/
def consLit (c : Char) : List Tok → List Tok
  | Tok.lit s :: ts => Tok.lit ⟨c :: s.data⟩ :: ts
  | ts => Tok.lit (String.singleton c) :: ts

/-- Single-pass tokeniser for the placeholder sublanguage of jinja2 used by
the issue template (`jinja2.Environment().from_string`): `\x7b\x7b ... \x7d\x7d`
delimits a substitution, anything else is literal text, and an unterminated
delimiter is a `jinja2.TemplateSyntaxError`.  The flag is `true` while
inside a placeholder; `acc` holds the characters read so far of the current
placeholder, reversed. -/
def parseAux : Bool → List Char → List Char → Except PyExc (List Tok)
  | false, _, [] => .ok []
  | true, _, [] => .error .templateSyntaxError
  | false, _, [c] => .ok [Tok.lit (String.singleton c)]
  | true, _, [_] => .error .templateSyntaxError
  | false, _, c1 :: c2 :: rest =>
      if c1 = '{' ∧ c2 = '{' then
        parseAux true [] rest
      else
        (parseAux false [] (c2 :: rest)).map (consLit c1)
  | true, acc, c1 :: c2 :: rest =>
      if c1 = '}' ∧ c2 = '}' then
        (parseAux false [] rest).map
          (fun ts => Tok.var (pyStrip ⟨acc.reverse⟩) :: ts)
      else
        parseAux true (c1 :: acc) (c2 :: rest)

deriving instance DecidableEq for Except

/-- `jinja2.Environment().from_string(source)`. -/
def parseTemplate (source : String) : Except PyExc (List Tok) :=
  parseAux false [] source.data

/-- Value of a placeholder under jinja2's default `Undefined`: a name
absent from the substitution context renders as the empty string. -/
def optValue (opts : List (String × String)) (n : String) : String :=
  (opts.lookup n).getD ""

/-- `Template.render(options)` on a parsed template. -/
def renderToks : List Tok → List (String × String) → String
  | [], _ => ""
  | Tok.lit s :: ts, opts => s ++ renderToks ts opts
  | Tok.var n :: ts, opts => optValue opts n ++ renderToks ts opts

/-- The ambient process environment read by `_create_issue_body`: the
outcomes of the three helper-tool queries, the interpreter and platform
strings, the in-flight traceback (`traceback.format_exc()`), the tool's
own version, and the text of the issue-template asset. -/
structure AmbientEnv where
  gcloud : InvokeResult
  docker : InvokeResult
  cloudSqlProxy : InvokeResult
  pythonVersion : String
  platformStr : String
  tracebackText : String
  toolVersion : String
  templateSrc : String
  deriving DecidableEq

/-- The `options` dict passed to `template.render` in
`_create_issue_body`. -/
def issueOptions (env : AmbientEnv) (command g d c : String) :
    List (String × String) :=
  [("django_cloud_deploy_version", env.toolVersion),
   ("command", command),
   ("gcloud_version", g),
   ("docker_version", d),
   ("cloud_sql_proxy_version", c),
   ("python_version", pyReplaceNewline env.pythonVersion),
   ("traceback", env.tracebackText),
   ("platform", env.platformStr)]

/-- `_create_issue_body(command)`: query the three helper tools in order
(gcloud, docker, cloud_sql_proxy), parse the template asset, and render it
with the option dict.  Any uncaught exception from those steps
propagates. -/
def createIssueBody (env : AmbientEnv) (command : String) :
    Except PyExc String := do
  let g ← getVersion env.gcloud
  let d ← getVersion env.docker
  let c ← getVersion env.cloudSqlProxy
  let tmpl ← parseTemplate env.templateSrc
  .ok (renderToks tmpl (issueOptions env command g d c))

/-- Characters that `urllib.parse.quote_plus` leaves unescaped. -/
def isUrlSafe (c : Char) : Bool :=
  ('A' ≤ c && c ≤ 'Z') || ('a' ≤ c && c ≤ 'z') || ('0' ≤ c && c ≤ '9') ||
    c = '_' || c = '.' || c = '-' || c = '~'

/-- Uppercase hexadecimal digit. -/
def hexDigitChar (n : Nat) : Char :=
  if n < 10 then Char.ofNat (48 + n) else Char.ofNat (55 + n)

/-- `urllib.parse.quote_plus` on one character (ASCII model: a space
becomes a plus, safe characters pass through, anything else is
percent-encoded from its code point). -/
def quotePlusChar (c : Char) : List Char :=
  if isUrlSafe c then [c]
  else if c = ' ' then ['+']
  else ['%', hexDigitChar (c.toNat / 16 % 16), hexDigitChar (c.toNat % 16)]

/-- `urllib.parse.quote_plus` on a string. -/
def quotePlus (s : String) : String :=
  ⟨s.data.foldr (fun c acc => quotePlusChar c ++ acc) []⟩

/-- `urllib.parse.urlencode` over an association list of parameters. -/
def urlencode (ps : List (String × String)) : String :=
  String.intercalate "&" (ps.map fun p => quotePlus p.1 ++ "=" ++ quotePlus p.2)

/-- The issue-creation endpoint format string used by `_create_issue`. -/
def requestUrlFormat : String :=
  "https://github.com/GoogleCloudPlatform/django-cloud-deploy/issues/new?{}"

/-- The URL built by `_create_issue` before calling `webbrowser.open`. -/
def createIssueUrl (title body : String) : String :=
  (pyFormat requestUrlFormat
    [urlencode [("title", title), ("body", body)]]).getD ""

/-- Observable actions of `handle_crash`, in program order: temp-file
creation (`tempfile.mkstemp`), opening (`os.fdopen`), writing and closing
the report file, console output (`console.tell`), console prompts
(`console.ask`), file removal (never performed by this module, present so
its absence is expressible), and the browser hand-off
(`webbrowser.open`). -/
inductive Event
  | mkstempEv (path : String)
  | fdopenEv (path : String)
  | writeEv (path : String) (content : String)
  | closeEv (path : String)
  | removeEv (path : String)
  | tell (msg : String)
  | ask (question : String)
  | openBrowser (url : String)
  deriving DecidableEq

/-- The prompt of the consent loop. -/
def promptMsg : String := "Would you like to file a bug? [y/N]: "

/-- The format string of the `console.tell` message of `handle_crash`. -/
def crashMessageFormat : String :=
  "Your \"{}\" failed due to an internal error.\n\nYou can report this error by filing a bug on Github. If you agree,\na browser window will open and an Github issue will be\npre-populated with the details of this crash.\nFor more details, see: {}"

/-- The message `handle_crash` shows before asking for consent; it names
the failed command and the local report path. -/
def crashMessage (command path : String) : String :=
  (pyFormat crashMessageFormat [command, path]).getD ""

/-- The `while True` consent loop of `handle_crash`: ask, read a line,
strip and lowercase it; an empty line or a line equal to y or n leaves the
loop, anything else re-prompts.  Returns the ask events it emitted and the
final decision (the post-loop test `ans.lower() == 'y'`; `ans` is already
lowercased inside the loop, so the test compares the normalised line with
y).  An exhausted input list models a user who never answers: the loop is
still blocked, no decision is reached. -/
def gateRun : List String → List Event × Option Bool
  | [] => ([Event.ask promptMsg], none)
  | a :: rest =>
    let s := pyLower (pyStrip a)
    if s = "" ∨ s = "y" ∨ s = "n" then ([Event.ask promptMsg], some (s = "y"))
    else
      let r := gateRun rest
      (Event.ask promptMsg :: r.1, r.2)

/-- `handle_crash(err, command, console)` as a trace-producing function.
Beyond the function's Python arguments (the exception, represented by its
kind name and message, and the command string), the model takes the
ambient environment read by `_create_issue_body`, whether the temp-file
write succeeds (`writeOk = false` models `log_file.write` raising
`IOError`), the lines the user will type, and the path `tempfile.mkstemp`
returns.  The result is the list of performed events and the exception
escaping the handler, if any.  Program order follows the source: mkstemp,
`_create_issue_body`, `_create_issue_title`, fdopen, write, close, tell,
the consent loop, and finally `_create_issue` when the answer was y. -/
def handleCrash (errKind errMsg command : String) (env : AmbientEnv)
    (writeOk : Bool) (inputs : List String) (tmpPath : String) :
    List Event × Option PyExc :=
  match createIssueBody env command with
  | .error e => ([Event.mkstempEv tmpPath], some e)
  | .ok body =>
    let title := createIssueTitle errKind errMsg command
    if writeOk then
      let e2 := [Event.mkstempEv tmpPath, Event.fdopenEv tmpPath,
        Event.writeEv tmpPath body, Event.closeEv tmpPath,
        Event.tell (crashMessage command tmpPath)]
      let r := gateRun inputs
      match r.2 with
      | none => (e2 ++ r.1, none)
      | some d =>
        if d then
          (e2 ++ r.1 ++ [Event.openBrowser (createIssueUrl title body)], none)
        else
          (e2 ++ r.1, none)
    else
      ([Event.mkstempEv tmpPath, Event.fdopenEv tmpPath], some .ioFailure)

/-- Effect of one event on a file system (a map from path to content):
`mkstemp` creates an empty file, a write appends to the file, removal
deletes it, and console or browser events leave files unchanged. -/
def applyEvent (fs : String → Option String) : Event → (String → Option String)
  | Event.mkstempEv p => fun q => if q = p then some "" else fs q
  | Event.writeEv p c => fun q => if q = p then some ((fs p).getD "" ++ c) else fs q
  | Event.removeEv p => fun q => if q = p then none else fs q
  | _ => fs

/-- Replay the file-system effects of a trace. -/
def replayFs (l : List Event) (fs : String → Option String) :
    String → Option String :=
  l.foldl applyEvent fs

/-- The file writes recorded in a trace, as (path, content) pairs. -/
def writesOf (l : List Event) : List (String × String) :=
  l.filterMap fun e =>
    match e with
    | Event.writeEv p c => some (p, c)
    | _ => none

/-- What a process-local file descriptor can refer to in the
`open_url` model. -/
inductive FdTarget
  | terminal
  | devNull
  | file (name : String)
  deriving DecidableEq

/-- A process-local descriptor table: the open descriptors with their
targets.  `lookup` is `none` for a closed (free) descriptor. -/
def FdTable := List (Nat × FdTarget)

/-- Target of a descriptor, if open. -/
def fdLookup (t : FdTable) (n : Nat) : Option FdTarget :=
  List.lookup n t

/-- Install (or overwrite) a descriptor. -/
def fdSet (t : FdTable) (n : Nat) (v : FdTarget) : FdTable :=
  (n, v) :: List.filter (fun p => p.1 != n) t

/-- Close a descriptor. -/
def fdClose (t : FdTable) (n : Nat) : FdTable :=
  List.filter (fun p => p.1 != n) t

/-- Largest descriptor number present in the table. -/
def fdMax (t : FdTable) : Nat :=
  (t.map Prod.fst).foldr max 0

/-- The descriptor `open` returns: the lowest free one (POSIX).  The
fallback after the bounded search is `fdMax t + 1`, which is always
free. -/
def freshFd (t : FdTable) : Nat :=
  ((List.range (fdMax t + 2)).find?
    (fun n => (fdLookup t n).isNone)).getD (fdMax t + 1)

/-- Observable actions of `open_url`. -/
inductive BrowserEvent
  | openedDevNull (fd : Nat)
  | dup2 (src dst : Nat)
  | browserOpen (url : String)
  | closedFd (fd : Nat)
  deriving DecidableEq

/-- `open_url(url)` from `django_cloud_deploy/utils/webbrowser.py`:
`with open(os.devnull, 'wb') as f: os.dup2(f.fileno(), 2);
webbrowser.open(url)`.  A descriptor on `os.devnull` is opened, `dup2`
redirects descriptor 2 to it, the browser call runs, and leaving the
`with` block closes the helper descriptor.  POSIX `dup2(a, a)` is a no-op,
which the model reproduces. -/
def open_url (url : String) (t : FdTable) : FdTable × List BrowserEvent :=
  let f := freshFd t
  let t1 := fdSet t f FdTarget.devNull
  let t2 := if f = 2 then t1 else fdSet t1 2 (fdLookup t1 f |>.getD .devNull)
  let t3 := fdClose t2 f
  (t3, [BrowserEvent.openedDevNull f, BrowserEvent.dup2 f 2,
    BrowserEvent.browserOpen url, BrowserEvent.closedFd f])

/-- Big-step rendering relation: `Renders opts ts out` holds when the
template token list `ts` renders to `out` under the substitution context
`opts`.  This is the declarative counterpart of `renderToks`, used to
state that rendering is deterministic. -/
inductive Renders (opts : List (String × String)) : List Tok → String → Prop
  | nil : Renders opts [] ""
  | lit (s : String) (ts : List Tok) (out : String) :
      Renders opts ts out → Renders opts (Tok.lit s :: ts) (s ++ out)
  | var (n : String) (ts : List Tok) (out : String) :
      Renders opts ts out → Renders opts (Tok.var n :: ts) (optValue opts n ++ out)

section Theorems

set_option maxRecDepth 10000

/-- Unfolds the title computation for arbitrary argument strings: the
format-string interpreter reduces on the concrete format string, leaving
the three substituted arguments in place. -/
theorem createIssueTitle_eq (k m c : String) :
    createIssueTitle k m c = k ++ ":" ++ m ++ " during \"" ++ c ++ "\"" := by
  have h : createIssueTitle k m c =
      k ++ (":" ++ (m ++ (" during \"" ++ (c ++ "\"")))) := rfl
  rw [h]
  apply String.ext
  simp [String.data_append]

/-- Unfolds the pre-consent console message for arbitrary command and
path: it names the failed command and ends with the local report path. -/
theorem crashMessage_eq (cmd path : String) :
    crashMessage cmd path =
      "Your \"" ++ cmd ++
        "\" failed due to an internal error.\n\nYou can report this error by filing a bug on Github. If you agree,\na browser window will open and an Github issue will be\npre-populated with the details of this crash.\nFor more details, see: " ++
        path := by
  have h : crashMessage cmd path =
      "Your \"" ++ (cmd ++
        ("\" failed due to an internal error.\n\nYou can report this error by filing a bug on Github. If you agree,\na browser window will open and an Github issue will be\npre-populated with the details of this crash.\nFor more details, see: " ++
        (path ++ ""))) := rfl
  rw [h]
  apply String.ext
  simp [String.data_append]

/-- Every event the consent loop emits is the fixed prompt. -/
theorem gateRun_events (inputs : List String) :
    ∀ e ∈ (gateRun inputs).1, e = Event.ask promptMsg := by
  induction inputs with
  | nil => intro e he; simpa [gateRun] using he
  | cons a rest ih =>
      intro e he
      rw [gateRun] at he
      by_cases hc : pyLower (pyStrip a) = "" ∨ pyLower (pyStrip a) = "y" ∨
          pyLower (pyStrip a) = "n"
      · simp [hc] at he
        exact he
      · simp [hc] at he
        rcases he with he | he
        · exact he
        · exact ih e he

theorem fdLookup_filter_ne (t : FdTable) (n m : Nat) (h : m ≠ n) :
    List.lookup m (List.filter (fun p => p.1 != n) t) = List.lookup m t := by
  induction t with
  | nil => rfl
  | cons p t ih =>
      obtain ⟨k, v⟩ := p
      rw [List.filter_cons]
      by_cases hk : k = n
      · have hdrop : ((k, v).1 != n) = false := by simp [hk]
        have hm : (m == k) = false := beq_eq_false_iff_ne.mpr (hk ▸ h)
        rw [hdrop]
        simp only [Bool.false_eq_true, if_false, List.lookup, hm, ih]
      · have hkeep : ((k, v).1 != n) = true := by simp [hk]
        rw [hkeep]
        simp only [if_true, List.lookup, ih]

theorem fdLookup_fdSet_self (t : FdTable) (n : Nat) (v : FdTarget) :
    fdLookup (fdSet t n v) n = some v := by
  simp [fdLookup, fdSet, List.lookup]

theorem fdLookup_fdSet_ne (t : FdTable) (n m : Nat) (v : FdTarget)
    (h : m ≠ n) : fdLookup (fdSet t n v) m = fdLookup t m := by
  have hm : (m == n) = false := beq_eq_false_iff_ne.mpr h
  simp only [fdLookup, fdSet, List.lookup, hm]
  exact fdLookup_filter_ne t n m h

theorem fdLookup_fdClose_self (t : FdTable) (n : Nat) :
    fdLookup (fdClose t n) n = none := by
  induction t with
  | nil => rfl
  | cons p t ih =>
      obtain ⟨k, v⟩ := p
      rw [fdClose, List.filter_cons]
      by_cases hk : k = n
      · have hdrop : ((k, v).1 != n) = false := by simp [hk]
        rw [hdrop]
        simpa [fdClose] using ih
      · have hkeep : ((k, v).1 != n) = true := by simp [hk]
        have hn : (n == k) = false :=
          beq_eq_false_iff_ne.mpr (fun hh => hk hh.symm)
        rw [hkeep]
        simp only [if_true, fdLookup, List.lookup, hn]
        simpa [fdClose, fdLookup] using ih

theorem fdLookup_fdClose_ne (t : FdTable) (n m : Nat) (h : m ≠ n) :
    fdLookup (fdClose t n) m = fdLookup t m := by
  simpa [fdClose, fdLookup] using fdLookup_filter_ne t n m h

theorem fdLookup_gt_max (t : FdTable) (n : Nat) (h : fdMax t < n) :
    fdLookup t n = none := by
  induction t with
  | nil => rfl
  | cons p t ih =>
      obtain ⟨k, v⟩ := p
      have h1 : k < n := lt_of_le_of_lt (le_max_left _ _) h
      have h2 : fdMax t < n := by
        exact lt_of_le_of_lt (le_max_right k _) h
      have hn : (n == k) = false :=
        beq_eq_false_iff_ne.mpr (Nat.ne_of_gt h1)
      simp only [fdLookup, List.lookup, hn] at ih ⊢
      exact ih h2

/-- The descriptor `open` picks is free. -/
theorem freshFd_free (t : FdTable) : fdLookup t (freshFd t) = none := by
  unfold freshFd
  cases hfind : (List.range (fdMax t + 2)).find?
      (fun n => (fdLookup t n).isNone) with
  | none =>
      simp only [Option.getD_none]
      exact fdLookup_gt_max t (fdMax t + 1) (Nat.lt_succ_self _)
  | some n =>
      have := List.find?_some hfind
      simp only [Option.getD_some]
      simpa [Option.isNone_iff_eq_none] using this

/-- C1: the claim says every invocation failure of a helper-tool version
query -- non-zero exit or missing executable -- yields the sentinel and
never aborts collection.  The code only catches
`subprocess.CalledProcessError`: a missing executable raises
`FileNotFoundError`, which escapes `_create_issue_body` and aborts
`handle_crash` right after the temp file is created.  This theorem
evaluates the code at that failing input: non-zero exit does give the
sentinel, but a missing gcloud executable propagates the exception and
collection aborts. -/
theorem C1_missing_tool_aborts_collection :
    getVersion InvokeResult.exitNonZero = Except.ok sentinel ∧
    getVersion InvokeResult.notFound = Except.error PyExc.fileNotFoundError ∧
    createIssueBody
      ⟨InvokeResult.notFound, InvokeResult.ok "v", InvokeResult.ok "v",
        "py", "plat", "tb", "1.0", ""⟩ "deploy new" =
      Except.error PyExc.fileNotFoundError ∧
    handleCrash "ValueError" "bad config" "deploy new"
      ⟨InvokeResult.notFound, InvokeResult.ok "v", InvokeResult.ok "v",
        "py", "plat", "tb", "1.0", ""⟩ true ["y"] "/tmp/report" =
      ([Event.mkstempEv "/tmp/report"], some PyExc.fileNotFoundError) := by
  refine ⟨rfl, rfl, by decide, by decide⟩

/-- C2 counterexample: the claim says the temp-file handle is closed on
every exit path and that the flow still informs the user after a write
failure.  At a concrete input where the write raises, the produced trace
is exactly mkstemp followed by fdopen: no close event and no tell event
occur, while the failure propagates. -/
theorem C2_counterexample_write_failure_leaks_handle :
    handleCrash "ValueError" "bad config" "deploy new"
      ⟨InvokeResult.ok "g", InvokeResult.ok "d", InvokeResult.ok "c",
        "py", "plat", "tb", "1.0", "body"⟩ false ["y"] "/tmp/report" =
      ([Event.mkstempEv "/tmp/report", Event.fdopenEv "/tmp/report"],
        some PyExc.ioFailure) ∧
    Event.closeEv "/tmp/report" ∉
      (handleCrash "ValueError" "bad config" "deploy new"
        ⟨InvokeResult.ok "g", InvokeResult.ok "d", InvokeResult.ok "c",
          "py", "plat", "tb", "1.0", "body"⟩ false ["y"] "/tmp/report").1 ∧
    Event.tell (crashMessage "deploy new" "/tmp/report") ∉
      (handleCrash "ValueError" "bad config" "deploy new"
        ⟨InvokeResult.ok "g", InvokeResult.ok "d", InvokeResult.ok "c",
          "py", "plat", "tb", "1.0", "body"⟩ false ["y"] "/tmp/report").1 := by
  refine ⟨by decide, by decide, by decide⟩

/-- C2 amended: on the successful path the handler closes the file handle
(after writing, before prompting); if the write raises, the failure
surfaces to the caller as the escaping exception, but the handle is never
closed and the user is never informed. -/
theorem C2_close_on_success_write_failure_surfaces
    (errKind errMsg command : String) (env : AmbientEnv)
    (inputs : List String) (tmpPath : String) (body : String)
    (hbody : createIssueBody env command = Except.ok body) :
    Event.closeEv tmpPath ∈
      (handleCrash errKind errMsg command env true inputs tmpPath).1 ∧
    handleCrash errKind errMsg command env false inputs tmpPath =
      ([Event.mkstempEv tmpPath, Event.fdopenEv tmpPath],
        some PyExc.ioFailure) := by
  constructor
  · cases hr : (gateRun inputs).2 with
    | none => simp [handleCrash, hbody, hr]
    | some d => cases d <;> simp [handleCrash, hbody, hr]
  · rw [handleCrash, hbody]
    rfl

theorem C2_witness :
    createIssueBody
      ⟨InvokeResult.ok "g", InvokeResult.ok "d", InvokeResult.ok "c",
        "py", "plat", "tb", "1.0", "body"⟩ "deploy new" =
      Except.ok "body" ∧
    Event.closeEv "/tmp/report" ∈
      (handleCrash "ValueError" "bad config" "deploy new"
        ⟨InvokeResult.ok "g", InvokeResult.ok "d", InvokeResult.ok "c",
          "py", "plat", "tb", "1.0", "body"⟩ true ["n"] "/tmp/report").1 :=
  ⟨by decide,
    (C2_close_on_success_write_failure_surfaces "ValueError" "bad config"
      "deploy new"
      ⟨InvokeResult.ok "g", InvokeResult.ok "d", InvokeResult.ok "c",
        "py", "plat", "tb", "1.0", "body"⟩ ["n"] "/tmp/report" "body"
      (by decide)).1⟩

/-- C4: the consent loop reads lines until one whose stripped, lowercased
form is empty, y, or n; any other line re-prompts; the decision is submit
exactly when that normalised form is y, so the empty default is
do-not-submit.  The concrete cases of the claim are included: the empty
line, N and n decline, y and Y accept, and maybe followed by y prompts
twice and accepts. -/
theorem C4_consent_gate :
    (∀ (a : String) (rest : List String),
      (gateRun (a :: rest)).2 =
        (if pyLower (pyStrip a) = "" ∨ pyLower (pyStrip a) = "y" ∨
            pyLower (pyStrip a) = "n"
          then some (decide (pyLower (pyStrip a) = "y"))
          else (gateRun rest).2)) ∧
    (gateRun [""]).2 = some false ∧
    (gateRun ["N"]).2 = some false ∧
    (gateRun ["n"]).2 = some false ∧
    (gateRun ["y"]).2 = some true ∧
    (gateRun ["Y"]).2 = some true ∧
    (gateRun ["maybe", "y"]).2 = some true ∧
    (gateRun ["maybe", "y"]).1.length = 2 := by
  refine ⟨?_, by decide, by decide, by decide, by decide, by decide,
    by decide, by decide⟩
  intro a rest
  by_cases hc : pyLower (pyStrip a) = "" ∨ pyLower (pyStrip a) = "y" ∨
      pyLower (pyStrip a) = "n"
  · simp [gateRun, hc]
  · simp [gateRun, hc]

/-- C6: the issue title is the exception kind, a colon, the exception
message, the word during, and the command in double quotes, with exactly
this punctuation; at the claim's concrete scenario the title is
`ValueError:bad config during "deploy new"`. -/
theorem C6_issue_title :
    (∀ kind msg command : String,
      createIssueTitle kind msg command =
        kind ++ ":" ++ msg ++ " during \"" ++ command ++ "\"") ∧
    createIssueTitle "ValueError" "bad config" "deploy new" =
      "ValueError:bad config during \"deploy new\"" :=
  ⟨createIssueTitle_eq, by decide⟩

/-- The only exception the template tokeniser ever raises is
`TemplateSyntaxError` (on an unterminated placeholder delimiter). -/
theorem except_ok_bind {ε α β : Type} (a : α) (f : α → Except ε β) :
    ((Except.ok a : Except ε α) >>= f) = f a := rfl

theorem parseAux_error_eq (e : PyExc) (b : Bool) (acc l : List Char)
    (h : parseAux b acc l = Except.error e) :
    e = PyExc.templateSyntaxError := by
  induction b, acc, l using parseAux.induct with
  | case1 acc => rw [parseAux] at h; cases h
  | case2 acc => rw [parseAux] at h; cases h; rfl
  | case3 acc c => rw [parseAux] at h; cases h
  | case4 acc c => rw [parseAux] at h; cases h; rfl
  | case5 acc c1 c2 rest hbr ih =>
      rw [parseAux, if_pos hbr] at h
      exact ih h
  | case6 acc c1 c2 rest hbr ih =>
      rw [parseAux, if_neg hbr] at h
      cases hx : parseAux false [] (c2 :: rest) with
      | error e' => rw [hx] at h; cases h; exact ih hx
      | ok ts => rw [hx] at h; cases h
  | case7 acc c1 c2 rest hbr ih =>
      rw [parseAux, if_pos hbr] at h
      cases hx : parseAux false [] rest with
      | error e' => rw [hx] at h; cases h; exact ih hx
      | ok ts => rw [hx] at h; cases h
  | case8 acc c1 c2 rest hbr ih =>
      rw [parseAux, if_neg hbr] at h
      exact ih h

/-- C3 counterexample: the claim says body rendering fails with a
`TemplateError` if and only if the template contains an unresolvable
placeholder.  Under the default jinja2 environment used by the code an
unresolvable placeholder is not an error: it renders as the empty string.
Concretely, a template whose only placeholder, missing, names no key of
the option dict parses and renders successfully. -/
theorem C3_counterexample_unresolvable_placeholder_renders :
    parseTemplate "a {{ missing }} b" =
      Except.ok [Tok.lit "a ", Tok.var "missing", Tok.lit " b"] ∧
    List.lookup "missing"
      (issueOptions
        ⟨InvokeResult.ok "g", InvokeResult.ok "d", InvokeResult.ok "c",
          "py", "plat", "tb", "1.0", "a {{ missing }} b"⟩
        "deploy new" "g" "d" "c") = none ∧
    createIssueBody
      ⟨InvokeResult.ok "g", InvokeResult.ok "d", InvokeResult.ok "c",
        "py", "plat", "tb", "1.0", "a {{ missing }} b"⟩ "deploy new" =
      Except.ok "a  b" := by
  refine ⟨by decide, by decide, by decide⟩

/-- C3 amended: with the three helper-tool queries succeeding, rendering
never fails because of field values (empty strings included): whenever the
template parses, `_create_issue_body` returns the rendered text, for every
environment and command; and when parsing fails, the failure is a
`TemplateSyntaxError` (malformed template source, e.g. an unterminated
placeholder), which is the only `TemplateError` the step can raise.  An
unresolvable placeholder is not an error: it renders as the empty
string. -/
theorem C3_render_total_fails_only_on_malformed_template
    (env : AmbientEnv) (command g d c : String)
    (hg : getVersion env.gcloud = Except.ok g)
    (hd : getVersion env.docker = Except.ok d)
    (hc : getVersion env.cloudSqlProxy = Except.ok c) :
    (∀ tmpl, parseTemplate env.templateSrc = Except.ok tmpl →
      createIssueBody env command =
        Except.ok (renderToks tmpl (issueOptions env command g d c))) ∧
    (∀ e, parseTemplate env.templateSrc = Except.error e →
      e = PyExc.templateSyntaxError ∧
        createIssueBody env command =
          Except.error PyExc.templateSyntaxError) := by
  constructor
  · intro tmpl htmpl
    rw [createIssueBody, hg, hd, hc]
    simp only [except_ok_bind]
    rw [htmpl]
    rfl
  · intro e he
    have hte := parseAux_error_eq e false [] env.templateSrc.data he
    subst hte
    constructor
    · rfl
    · rw [createIssueBody, hg, hd, hc]
      simp only [except_ok_bind]
      rw [he]
      rfl

theorem C3_witness :
    getVersion (InvokeResult.ok "g") = Except.ok "g" ∧
    parseTemplate "v={{ command }}" =
      Except.ok [Tok.lit "v=", Tok.var "command"] ∧
    createIssueBody
      ⟨InvokeResult.ok "g", InvokeResult.ok "g", InvokeResult.ok "g",
        "py", "plat", "tb", "1.0", "v={{ command }}"⟩ "deploy new" =
      Except.ok
        (renderToks [Tok.lit "v=", Tok.var "command"]
          (issueOptions
            ⟨InvokeResult.ok "g", InvokeResult.ok "g", InvokeResult.ok "g",
              "py", "plat", "tb", "1.0", "v={{ command }}"⟩
            "deploy new" "g" "g" "g")) :=
  ⟨by decide, by decide,
    (C3_render_total_fails_only_on_malformed_template
      ⟨InvokeResult.ok "g", InvokeResult.ok "g", InvokeResult.ok "g",
        "py", "plat", "tb", "1.0", "v={{ command }}"⟩
      "deploy new" "g" "g" "g" (by decide) (by decide) (by decide)).1
      [Tok.lit "v=", Tok.var "command"] (by decide)⟩

/-- C5: the browser-open hand-off never happens unless the consent gate
decided submit; whenever it does happen it is the final action, strictly
after the console message that contains the crash explanation; and that
message ends with the local report path, so the user sees explanation and
path before any network-adjacent action. -/
theorem C5_no_submission_without_consent
    (errKind errMsg command : String) (env : AmbientEnv) (writeOk : Bool)
    (inputs : List String) (tmpPath : String) :
    ((gateRun inputs).2 ≠ some true →
      ∀ url, Event.openBrowser url ∉
        (handleCrash errKind errMsg command env writeOk inputs tmpPath).1) ∧
    (∀ url, Event.openBrowser url ∈
        (handleCrash errKind errMsg command env writeOk inputs tmpPath).1 →
      ∃ pre,
        (handleCrash errKind errMsg command env writeOk inputs tmpPath).1 =
          pre ++ [Event.openBrowser url] ∧
        Event.tell (crashMessage command tmpPath) ∈ pre) ∧
    (∃ s, crashMessage command tmpPath = s ++ tmpPath) := by
  refine ⟨?_, ?_, ?_⟩
  · intro hne url hmem
    cases hb : createIssueBody env command with
    | error e => simp [handleCrash, hb] at hmem
    | ok body =>
        cases writeOk with
        | false => simp [handleCrash, hb] at hmem
        | true =>
            cases hr : (gateRun inputs).2 with
            | none =>
                simp [handleCrash, hb, hr] at hmem
                simpa using gateRun_events inputs _ hmem
            | some d =>
                cases d with
                | false =>
                    simp [handleCrash, hb, hr] at hmem
                    simpa using gateRun_events inputs _ hmem
                | true => exact hne hr
  · intro url hmem
    cases hb : createIssueBody env command with
    | error e => simp [handleCrash, hb] at hmem
    | ok body =>
        cases writeOk with
        | false => simp [handleCrash, hb] at hmem
        | true =>
            cases hr : (gateRun inputs).2 with
            | none =>
                simp [handleCrash, hb, hr] at hmem
                simpa using gateRun_events inputs _ hmem
            | some d =>
                cases d with
                | false =>
                    simp [handleCrash, hb, hr] at hmem
                    simpa using gateRun_events inputs _ hmem
                | true =>
                    have hred :
                        (handleCrash errKind errMsg command env true inputs
                          tmpPath).1 =
                        [Event.mkstempEv tmpPath, Event.fdopenEv tmpPath,
                          Event.writeEv tmpPath body, Event.closeEv tmpPath,
                          Event.tell (crashMessage command tmpPath)] ++
                          ((gateRun inputs).1 ++
                            [Event.openBrowser (createIssueUrl
                              (createIssueTitle errKind errMsg command)
                              body)]) := by
                      simp [handleCrash, hb, hr]
                    rw [hred] at hmem
                    rcases List.mem_append.mp hmem with hm | hm
                    · simp at hm
                    · rcases List.mem_append.mp hm with hm2 | hm2
                      · exact absurd (gateRun_events inputs _ hm2) (by simp)
                      · have hurl : url = createIssueUrl
                            (createIssueTitle errKind errMsg command) body := by
                          simpa using hm2
                        subst hurl
                        refine ⟨[Event.mkstempEv tmpPath,
                          Event.fdopenEv tmpPath, Event.writeEv tmpPath body,
                          Event.closeEv tmpPath,
                          Event.tell (crashMessage command tmpPath)] ++
                            (gateRun inputs).1, ?_, by simp⟩
                        rw [hred]
                        simp
  · exact ⟨_, crashMessage_eq command tmpPath⟩

theorem C5_witness :
    Event.openBrowser "https://example.invalid" ∉
      (handleCrash "ValueError" "bad config" "deploy new"
        ⟨InvokeResult.ok "g", InvokeResult.ok "d", InvokeResult.ok "c",
          "py", "plat", "tb", "1.0", "body"⟩ true ["n"] "/tmp/report").1 ∧
    (∃ pre,
      (handleCrash "ValueError" "bad config" "deploy new"
        ⟨InvokeResult.ok "g", InvokeResult.ok "d", InvokeResult.ok "c",
          "py", "plat", "tb", "1.0", "body"⟩ true ["y"] "/tmp/report").1 =
        pre ++ [Event.openBrowser
          (createIssueUrl
            (createIssueTitle "ValueError" "bad config" "deploy new")
            "body")] ∧
      Event.tell (crashMessage "deploy new" "/tmp/report") ∈ pre) :=
  ⟨(C5_no_submission_without_consent "ValueError" "bad config" "deploy new"
      ⟨InvokeResult.ok "g", InvokeResult.ok "d", InvokeResult.ok "c",
        "py", "plat", "tb", "1.0", "body"⟩ true ["n"] "/tmp/report").1
      (by decide) "https://example.invalid",
    (C5_no_submission_without_consent "ValueError" "bad config" "deploy new"
      ⟨InvokeResult.ok "g", InvokeResult.ok "d", InvokeResult.ok "c",
        "py", "plat", "tb", "1.0", "body"⟩ true ["y"] "/tmp/report").2.1
      (createIssueUrl
        (createIssueTitle "ValueError" "bad config" "deploy new") "body")
      (by decide)⟩

/-- C7: rendering is deterministic and idempotent.  The declarative
rendering relation `Renders` admits at most one output for a given
substitution context and token list, and `renderToks` (the code's
rendering) realises it, so two renderings of identical inputs are
byte-identical; the title is likewise a function of the three input
strings alone.  Inputs are immutable values in this model, matching the
fact that the Python code only reads its arguments. -/
theorem C7_render_deterministic :
    (∀ (opts : List (String × String)) (ts : List Tok) (o₁ o₂ : String),
      Renders opts ts o₁ → Renders opts ts o₂ → o₁ = o₂) ∧
    (∀ (opts : List (String × String)) (ts : List Tok),
      Renders opts ts (renderToks ts opts)) ∧
    (∀ kind msg command : String,
      createIssueTitle kind msg command =
        kind ++ ":" ++ msg ++ " during \"" ++ command ++ "\"") := by
  refine ⟨?_, ?_, createIssueTitle_eq⟩
  · intro opts ts o₁ o₂ h1 h2
    induction h1 generalizing o₂ with
    | nil => cases h2; rfl
    | lit s ts out h ih =>
        cases h2 with
        | lit _ _ out2 h2' => rw [ih _ h2']
    | var n ts out h ih =>
        cases h2 with
        | var _ _ out2 h2' => rw [ih _ h2']
  · intro opts ts
    induction ts with
    | nil => exact Renders.nil
    | cons t ts ih =>
        cases t with
        | lit s => exact Renders.lit s ts _ ih
        | var n => exact Renders.var n ts _ ih

theorem C7_witness :
    renderToks [Tok.lit "x", Tok.var "command"] [("command", "y")] =
      "x" ++ ("y" ++ "") :=
  C7_render_deterministic.1 [("command", "y")] [Tok.lit "x", Tok.var "command"]
    _ _
    (C7_render_deterministic.2.1 [("command", "y")]
      [Tok.lit "x", Tok.var "command"])
    (Renders.lit "x" _ _ (Renders.var "command" _ _ Renders.nil))

/-- C8: `open_url` redirects exactly the process's descriptor 2 to the
null sink: after the call descriptor 2 refers to the null device, every
other descriptor is exactly as before (the helper descriptor opened on
the null device is closed again by the `with` block), and the redirection
(`dup2`) happens immediately before the browser-open delegation, as the
event list records.  All of this is process-local state, so nothing
persists beyond the process. -/
theorem C8_open_url_redirects_only_stderr (url : String) (t : FdTable)
    (tgt : FdTarget) (h2 : fdLookup t 2 = some tgt) :
    fdLookup (open_url url t).1 2 = some FdTarget.devNull ∧
    (∀ n, n ≠ 2 → fdLookup (open_url url t).1 n = fdLookup t n) ∧
    (open_url url t).2 =
      [BrowserEvent.openedDevNull (freshFd t),
        BrowserEvent.dup2 (freshFd t) 2,
        BrowserEvent.browserOpen url,
        BrowserEvent.closedFd (freshFd t)] := by
  have hf : fdLookup t (freshFd t) = none := freshFd_free t
  have hne : freshFd t ≠ 2 := by
    intro he
    rw [he, h2] at hf
    cases hf
  have h2f : (2 : Nat) ≠ freshFd t := fun h => hne h.symm
  refine ⟨?_, ?_, rfl⟩
  · show fdLookup (fdClose _ (freshFd t)) 2 = some FdTarget.devNull
    rw [fdLookup_fdClose_ne _ _ _ h2f]
    rw [if_neg hne]
    rw [fdLookup_fdSet_self, fdLookup_fdSet_self]
    rfl
  · intro n hn
    by_cases hnf : n = freshFd t
    · rw [hnf]
      show fdLookup (fdClose _ (freshFd t)) (freshFd t) = fdLookup t (freshFd t)
      rw [fdLookup_fdClose_self, hf]
    · show fdLookup (fdClose _ (freshFd t)) n = fdLookup t n
      rw [fdLookup_fdClose_ne _ _ _ hnf]
      rw [if_neg hne]
      rw [fdLookup_fdSet_ne _ _ _ _ hn]
      rw [fdLookup_fdSet_ne _ _ _ _ hnf]

theorem C8_witness :
    fdLookup
      (open_url "https://example.invalid"
        [(0, FdTarget.terminal), (1, FdTarget.terminal),
          (2, FdTarget.terminal)]).1 2 = some FdTarget.devNull ∧
    fdLookup
      (open_url "https://example.invalid"
        [(0, FdTarget.terminal), (1, FdTarget.terminal),
          (2, FdTarget.terminal)]).1 1 = some FdTarget.terminal :=
  ⟨(C8_open_url_redirects_only_stderr "https://example.invalid"
      [(0, FdTarget.terminal), (1, FdTarget.terminal),
        (2, FdTarget.terminal)] FdTarget.terminal (by decide)).1,
    by
      rw [(C8_open_url_redirects_only_stderr "https://example.invalid"
        [(0, FdTarget.terminal), (1, FdTarget.terminal),
          (2, FdTarget.terminal)] FdTarget.terminal (by decide)).2.1 1
        (by decide)]
      decide⟩

/-- C9: the rendered report body does not depend on the exception object
handed to `handle_crash`: for two runs that differ only in the exception
(kind and message), the file writes are identical (the single write of the
body) and the escaping exception, if any, is the same.  The exception only
reaches the issue title, because `_create_issue_body` never receives it:
the traceback in the body comes from the ambient interpreter state. -/
theorem C9_body_independent_of_exception
    (kind1 msg1 kind2 msg2 command : String) (env : AmbientEnv)
    (writeOk : Bool) (inputs : List String) (tmpPath : String) :
    writesOf (handleCrash kind1 msg1 command env writeOk inputs tmpPath).1 =
      writesOf (handleCrash kind2 msg2 command env writeOk inputs tmpPath).1 ∧
    (handleCrash kind1 msg1 command env writeOk inputs tmpPath).2 =
      (handleCrash kind2 msg2 command env writeOk inputs tmpPath).2 := by
  cases hb : createIssueBody env command with
  | error e => constructor <;> simp [handleCrash, hb]
  | ok body =>
      cases writeOk with
      | false => constructor <;> simp [handleCrash, hb]
      | true =>
          cases hr : (gateRun inputs).2 with
          | none => constructor <;> simp [handleCrash, hb, hr]
          | some d =>
              cases d with
              | false => constructor <;> simp [handleCrash, hb, hr]
              | true =>
                  constructor <;>
                    simp [handleCrash, hb, hr, writesOf,
                      List.filterMap_append]

/-- A trace consisting only of console prompts leaves every file
unchanged. -/
theorem replayFs_asks (l : List Event)
    (h : ∀ e ∈ l, e = Event.ask promptMsg)
    (fs : String → Option String) : replayFs l fs = fs := by
  induction l generalizing fs with
  | nil => rfl
  | cons e l ih =>
      have he := h e (by simp)
      subst he
      exact ih (fun e' he' => h e' (by simp [he'])) fs

/-- C10: on every run that reaches the consent question (body rendered,
write succeeded, the user eventually gives a decisive answer), the
handler returns normally; the trace starts with creating, writing and
closing the report file and telling the user, all before the first
prompt; replaying the file-system effects leaves the report body on disk
at the announced path whatever the decision was; and the handler never
removes a file. -/
theorem C10_report_persists (errKind errMsg command : String)
    (env : AmbientEnv) (inputs : List String) (tmpPath : String)
    (body : String) (askEvs : List Event) (d : Bool)
    (hbody : createIssueBody env command = Except.ok body)
    (hgate : gateRun inputs = (askEvs, some d)) :
    (handleCrash errKind errMsg command env true inputs tmpPath).2 = none ∧
    (∃ post, (handleCrash errKind errMsg command env true inputs tmpPath).1 =
      [Event.mkstempEv tmpPath, Event.fdopenEv tmpPath,
        Event.writeEv tmpPath body, Event.closeEv tmpPath,
        Event.tell (crashMessage command tmpPath)] ++ post) ∧
    replayFs (handleCrash errKind errMsg command env true inputs tmpPath).1
      (fun _ => none) tmpPath = some body ∧
    (∀ q, Event.removeEv q ∉
      (handleCrash errKind errMsg command env true inputs tmpPath).1) := by
  have hasks : ∀ e ∈ askEvs, e = Event.ask promptMsg := by
    intro e he
    exact gateRun_events inputs e (by rw [hgate]; exact he)
  have hfs5 : replayFs
      [Event.mkstempEv tmpPath, Event.fdopenEv tmpPath,
        Event.writeEv tmpPath body, Event.closeEv tmpPath,
        Event.tell (crashMessage command tmpPath)]
      (fun _ => none) tmpPath = some body := by
    show (if tmpPath = tmpPath then
        some ((if tmpPath = tmpPath then some "" else none).getD "" ++ body)
      else (if tmpPath = tmpPath then some "" else none)) = some body
    rw [if_pos rfl, if_pos rfl]
    rw [Option.getD_some, String.empty_append]
  cases d with
  | false =>
      have hred : handleCrash errKind errMsg command env true inputs tmpPath =
          ([Event.mkstempEv tmpPath, Event.fdopenEv tmpPath,
            Event.writeEv tmpPath body, Event.closeEv tmpPath,
            Event.tell (crashMessage command tmpPath)] ++ askEvs, none) := by
        simp [handleCrash, hbody, hgate]
      rw [hred]
      refine ⟨rfl, ⟨askEvs, rfl⟩, ?_, ?_⟩
      · show replayFs (_ ++ askEvs) _ _ = some body
        rw [replayFs, List.foldl_append]
        rw [show ∀ fs, List.foldl applyEvent fs askEvs = replayFs askEvs fs
          from fun _ => rfl]
        rw [replayFs_asks askEvs hasks]
        exact hfs5
      · intro q hq
        rcases List.mem_append.mp hq with hm | hm
        · simp at hm
        · exact absurd (hasks _ hm) (by simp)
  | true =>
      have hred : handleCrash errKind errMsg command env true inputs tmpPath =
          ([Event.mkstempEv tmpPath, Event.fdopenEv tmpPath,
            Event.writeEv tmpPath body, Event.closeEv tmpPath,
            Event.tell (crashMessage command tmpPath)] ++
            (askEvs ++ [Event.openBrowser (createIssueUrl
              (createIssueTitle errKind errMsg command) body)]), none) := by
        simp [handleCrash, hbody, hgate]
      rw [hred]
      refine ⟨rfl, ⟨_, rfl⟩, ?_, ?_⟩
      · show replayFs (_ ++ (askEvs ++ _)) _ _ = some body
        rw [replayFs, List.foldl_append, List.foldl_append]
        rw [show ∀ fs, List.foldl applyEvent fs askEvs = replayFs askEvs fs
          from fun _ => rfl]
        rw [replayFs_asks askEvs hasks]
        exact hfs5
      · intro q hq
        rcases List.mem_append.mp hq with hm | hm
        · simp at hm
        · rcases List.mem_append.mp hm with hm2 | hm2
          · exact absurd (hasks _ hm2) (by simp)
          · simp at hm2

theorem C10_witness :
    replayFs
      (handleCrash "ValueError" "bad config" "deploy new"
        ⟨InvokeResult.ok "g", InvokeResult.ok "d", InvokeResult.ok "c",
          "py", "plat", "tb", "1.0", "body"⟩ true ["n"] "/tmp/report").1
      (fun _ => none) "/tmp/report" = some "body" ∧
    (handleCrash "ValueError" "bad config" "deploy new"
      ⟨InvokeResult.ok "g", InvokeResult.ok "d", InvokeResult.ok "c",
        "py", "plat", "tb", "1.0", "body"⟩ true ["n"] "/tmp/report").2 =
      none :=
  ⟨(C10_report_persists "ValueError" "bad config" "deploy new"
      ⟨InvokeResult.ok "g", InvokeResult.ok "d", InvokeResult.ok "c",
        "py", "plat", "tb", "1.0", "body"⟩ ["n"] "/tmp/report" "body"
      [Event.ask promptMsg] false (by decide) (by decide)).2.2.1,
    (C10_report_persists "ValueError" "bad config" "deploy new"
      ⟨InvokeResult.ok "g", InvokeResult.ok "d", InvokeResult.ok "c",
        "py", "plat", "tb", "1.0", "body"⟩ ["n"] "/tmp/report" "body"
      [Event.ask promptMsg] false (by decide) (by decide)).1⟩

end Theorems

end DjangoCloudDeploy
